import Mathlib

/-!
Verification of `tools/stress-test.py` (Irrlicht stress-test harness).

The Python script is a test driver: it spawns one subprocess per event,
feeds one JSON document on the subprocess's standard input, and classifies
the outcome from the exit code and the captured stdout/stderr.  We embed
the harness shallowly:

* wall-clock measurements (`time.time()` differences) are nondeterministic,
  so each measured latency is an explicit rational parameter;
* the subprocess itself is an oracle: an `ExecOutcome` value says whether
  `subprocess.run` returned (with which exit code and captured output),
  raised `TimeoutExpired`, or raised some other exception.  In the `raised`
  case the exception is modelled as happening before the subprocess wrote
  anything (e.g. in `json.dumps`), so no document is recorded as sent;
* `random.choice` / `random.randint` draws are explicit parameters
  (`Fin n` for a choice among `n` alternatives);
* `json.dumps` is modelled for the concrete dictionaries the script builds,
  none of whose keys or values need JSON string escaping, with the default
  separators `", "` and `": "` and Python 3 insertion order.
-/

/-- A JSON value as produced by the script's event dictionaries. -/
inductive JVal where
  | s (v : String)
  | n (v : Int)
  | b (v : Bool)
deriving DecidableEq

/-- Serialization of one `JVal`, as `json.dumps` renders it. -/
def JVal.dump : JVal → String
  | .s v => "\"" ++ v ++ "\""
  | .n v => toString v
  | .b true => "true"
  | .b false => "false"

/-- `json.dumps` body of a flat object: entries joined by `", "`,
each rendered `"key": value`. -/
def dump_entries : List (String × JVal) → String
  | [] => ""
  | [kv] => "\"" ++ kv.1 ++ "\": " ++ kv.2.dump
  | kv :: rest => "\"" ++ kv.1 ++ "\": " ++ kv.2.dump ++ ", " ++ dump_entries rest

/-- `json.dumps` of a flat object (keys and string values that need no
escaping), default separators. -/
def json_dumps_obj (kvs : List (String × JVal)) : String :=
  "\x7b" ++ dump_entries kvs ++ "\x7d"

/-- An event dictionary as built by `StressTestRunner.generate_event`
(lines 51-60): the four top-level keys in insertion order. -/
structure Event where
  hook_event_name : String
  session_id : String
  timestamp : String
  data : List (String × JVal)
deriving DecidableEq

/-- `json.dumps` of a full event dictionary (insertion order
`hook_event_name`, `session_id`, `timestamp`, `data`). -/
def json_dumps_event (e : Event) : String :=
  "\x7b\"hook_event_name\": \"" ++ e.hook_event_name ++
  "\", \"session_id\": \"" ++ e.session_id ++
  "\", \"timestamp\": \"" ++ e.timestamp ++
  "\", \"data\": " ++ json_dumps_obj e.data ++ "\x7d"

/-- The `event_data` argument of `send_event`: a dict or a raw string
(`isinstance(event_data, dict)` test, lines 94-97). -/
inductive EventInput where
  | dict (e : Event)
  | str (s : String)
deriving DecidableEq

/-- The `json_data` local of `send_event` (lines 94-97): dicts are
serialized, strings pass through. -/
def json_data : EventInput → String
  | .dict e => json_dumps_event e
  | .str s => s

/-- Oracle for one `subprocess.run` call inside `send_event`:
the call completed with an exit code and captured output, raised
`subprocess.TimeoutExpired`, or raised some other exception. -/
inductive ExecOutcome where
  | completed (returncode : Int) (stdout stderr : String)
  | timedOut
  | raised (msg : String)
deriving DecidableEq

/-- The `self.results` dictionary (`__init__`, lines 28-35). -/
structure Results where
  events_processed : Nat
  errors : Nat
  timeouts : Nat
  latencies : List ℚ
  start_time : Option ℚ
  end_time : Option ℚ
deriving DecidableEq

/-- `self.results` as initialised in `__init__`. -/
def init_results : Results :=
  { events_processed := 0, errors := 0, timeouts := 0, latencies := [],
    start_time := none, end_time := none }

/-- The triple returned by `send_event`. -/
structure SendResult where
  success : Bool
  latency : ℚ
  output : String
deriving DecidableEq

/-- `StressTestRunner.send_event` (lines 89-122).  Inputs beyond the code's
own arguments: the subprocess oracle and the measured latency.  Returns the
Python return triple, the updated `self.results`, and the list of JSON
documents written to the subprocess's standard input during the call. -/
def send_event (res : Results) (event_data : EventInput) (outcome : ExecOutcome)
    (latency : ℚ) (timeout : ℚ) : SendResult × Results × List String :=
  match outcome with
  | .completed rc out err =>
      if rc = 0 then
        (⟨true, latency, out⟩,
         { res with events_processed := res.events_processed + 1,
                    latencies := res.latencies ++ [latency] },
         [json_data event_data])
      else
        (⟨false, latency, err⟩,
         { res with errors := res.errors + 1 },
         [json_data event_data])
  | .timedOut =>
      (⟨false, timeout * 1000, "Process timed out"⟩,
       { res with timeouts := res.timeouts + 1 },
       [json_data event_data])
  | .raised msg =>
      (⟨false, 0, msg⟩,
       { res with errors := res.errors + 1 },
       [])

/-- Python's substring test `needle in hay` on strings. -/
def py_in (needle hay : String) : Bool := decide (needle.data <:+: hay.data)

/-- The literal the harness pattern-matches on (line 142). -/
def validation_failed_marker : String := "validation failed"

/-- The warning branch of `event_sender` inside `performance_stress_test`
(lines 142-143): `if not success and 'validation failed' not in output`,
printing the truncated diagnostic when it fires. -/
def event_sender_warning (success : Bool) (output : String) : Option String :=
  if !success && !(py_in validation_failed_marker output) then
    some ("⚠️  Event failed: " ++ output.take 100)
  else
    none

/-- The string `'x' * 600000` (line 84). -/
def sess600k : String := String.mk (List.replicate 600000 'x')

/-- The oversized malformed event of `generate_malformed_event` (line 84):
`json.dumps` of a dict with a valid event type and a 600,000-byte
session id. -/
def oversized_session_event : String :=
  json_dumps_obj [("hook_event_name", .s "SessionStart"), ("session_id", .s sess600k)]

/-- The `malformed_types` list of `generate_malformed_event` (lines 80-86). -/
def malformed_types : List String :=
  ["\x7b\"invalid\": \"json\"",
   "\x7b\"hook_event_name\": \"InvalidEvent\"\x7d",
   "\x7b\"session_id\": \"\"\x7d",
   oversized_session_event,
   "\x7b\x7d"]

/-- `StressTestRunner.generate_malformed_event` (lines 78-87):
`random.choice(malformed_types)`, the draw made explicit. -/
def generate_malformed_event (i : Fin 5) : String :=
  malformed_types.get ⟨i.val, i.isLt⟩

/-- The closed event-type pool of `generate_event` (lines 44-47). -/
def event_types : List String :=
  ["SessionStart", "UserPromptSubmit", "Notification",
   "Stop", "SubagentStop", "SessionEnd"]

/-- The model pool of `generate_event` (line 58). -/
def models_pool : List String :=
  ["claude-3.7-sonnet", "claude-3-haiku", "claude-3-opus"]

/-- The notification-type pool of `generate_event` (line 71). -/
def notification_types : List String :=
  ["user_input_required", "confirmation_required"]

/-- The random draws and environment reads consumed by one call to
`generate_event` (lines 38-76), made explicit. -/
structure EventRandomness where
  r_sess : Nat
  r_type : Fin 6
  t_micro : Nat
  username : String
  r_model : Fin 3
  r_plen : Nat
  r_attach : Bool
  r_msg : Nat
  r_notif : Fin 2

/-- Lines 40-41: `if not session_id` (Python falsy covers `None` and `""`)
generates `sess_stress_{random.randint(100000, 999999)}`. -/
def resolve_session_id (sid : Option String) (r : EventRandomness) : String :=
  match sid with
  | none => "sess_stress_" ++ toString r.r_sess
  | some s => if s = "" then "sess_stress_" ++ toString r.r_sess else s

/-- Lines 43-47: `if not event_type` draws uniformly from the six event
types. -/
def resolve_event_type (etype : Option String) (r : EventRandomness) : String :=
  match etype with
  | none => event_types.get ⟨r.r_type.val, r.r_type.isLt⟩
  | some s => if s = "" then event_types.get ⟨r.r_type.val, r.r_type.isLt⟩ else s

/-- `StressTestRunner.generate_event` (lines 38-76): the event dictionary,
with the base `data` mapping (lines 55-59) extended by the event-specific
`update` calls (lines 63-74).  `timestamp` is the decimal rendering of
`int(time.time() * 1000000)`, the microsecond epoch read `r.t_micro`. -/
def generate_event (sid etype : Option String) (r : EventRandomness) : Event :=
  let session_id := resolve_session_id sid r
  let event_type := resolve_event_type etype r
  let base : List (String × JVal) :=
    [("transcript_path", .s ("/Users/" ++ r.username ++
        "/.claude/projects/stress-test-" ++ session_id ++ "/transcript.jsonl")),
     ("cwd", .s ("/Users/" ++ r.username ++ "/projects/stress-test-" ++ session_id)),
     ("model", .s (models_pool.get ⟨r.r_model.val, r.r_model.isLt⟩))]
  let extra : List (String × JVal) :=
    if event_type = "UserPromptSubmit" then
      [("prompt_length", .n r.r_plen),
       ("has_attachments", .b r.r_attach),
       ("message_id", .s ("msg_" ++ toString r.r_msg))]
    else if event_type = "Notification" then
      [("notification_type", .s (notification_types.get ⟨r.r_notif.val, r.r_notif.isLt⟩)),
       ("message", .s "Test notification message"),
       ("context", .s "stress_test")]
    else []
  { hook_event_name := event_type, session_id := session_id,
    timestamp := toString r.t_micro, data := base ++ extra }

/-- The string `'y' * 700000` (line 173). -/
def ystr700k : String := String.mk (List.replicate 700000 'y')

/-- The oversized scenario payload of `error_injection_test` (line 173):
`json.dumps` of a one-key dict whose value is a 700,000-byte string. -/
def oversized_payload : String := json_dumps_obj [("x", .s ystr700k)]

/-- The dict of the invalid-event-type scenario (lines 175-179); `t` is the
`int(time.time())` read. -/
def invalid_type_fields (t : Nat) : List (String × JVal) :=
  [("hook_event_name", .s "InvalidEvent"),
   ("session_id", .s "sess_error_test"),
   ("timestamp", .s (toString t))]

/-- The dict of the missing-session-id scenario (lines 180-183). -/
def missing_sid_fields (t : Nat) : List (String × JVal) :=
  [("hook_event_name", .s "SessionStart"),
   ("timestamp", .s (toString t))]

/-- The `error_scenarios` list of `error_injection_test` (lines 171-184),
with each generator already invoked: `mi` is the random draw of the
malformed-JSON scenario's `generate_malformed_event`, `t4` and `t5` the two
`int(time.time())` reads. -/
def error_scenarios (mi : Fin 5) (t4 t5 : Nat) : List (String × String) :=
  [("Malformed JSON", generate_malformed_event mi),
   ("Oversized payload", oversized_payload),
   ("Empty input", ""),
   ("Invalid event type", json_dumps_obj (invalid_type_fields t4)),
   ("Missing session_id", json_dumps_obj (missing_sid_fields t5))]

/-- The loop of `error_injection_test` (lines 186-195): each scenario's
payload goes to `send_event`; `send_success` is the success flag the call
returns.  The recorded Boolean says whether the test printed
"Failed as expected" (it prints "Expected failure but got success"
otherwise). -/
def error_injection_verdicts (mi : Fin 5) (t4 t5 : Nat)
    (send_success : String → Bool) : List (String × Bool) :=
  (error_scenarios mi t4 t5).map (fun sc => (sc.1, !(send_success sc.2)))

/-- Python `f"{i:02d}"`: decimal, zero-padded to at least two digits. -/
def fmt02 (i : Nat) : String :=
  if i < 10 then "0" ++ toString i else toString i

/-- The session ids of `concurrent_sessions_test` (line 222). -/
def concurrent_session_ids (num_sessions : Nat) : List String :=
  (List.range num_sessions).map (fun i => "sess_concurrent_" ++ fmt02 i)

/-- The `events` rota of `session_worker` (lines 206-207). -/
def worker_event_types : List String :=
  ["SessionStart", "UserPromptSubmit", "UserPromptSubmit",
   "Notification", "UserPromptSubmit", "Stop"]

/-- One `session_worker` (lines 205-218): the (session id, event type)
pairs of the `events_per_session` invocations it launches,
`events[i % len(events)]` selecting the type. -/
def session_worker_calls (sid : String) (events_per_session : Nat) :
    List (String × String) :=
  (List.range events_per_session).map
    (fun i => (sid, worker_event_types.get ⟨i % 6, by simp [worker_event_types]; omega⟩))

/-- `StressTestRunner.concurrent_sessions_test` (lines 199-229): the
multiset of invocations launched across all session workers (the workers
run in parallel threads; the flattening is one interleaving, which the
counting claims are insensitive to).  The executor waits on every
`future.result()`, so the completed test contains every worker's calls. -/
def concurrent_sessions_calls (num_sessions events_per_session : Nat) :
    List (String × String) :=
  (concurrent_session_ids num_sessions).flatMap
    (fun sid => session_worker_calls sid events_per_session)

/-- `performance_stress_test` submits `event_sender` three times to a
3-worker pool (lines 149-150). -/
def perf_sender_threads : Nat := 3

/-- The session pool of `performance_stress_test` (line 134). -/
def perf_session_pool : List String :=
  (List.range 8).map (fun i => "sess_perf_" ++ toString i)

/-- The per-sender pause `time.sleep(1.0 / events_per_second)`
(line 146), in seconds. -/
def perf_sender_delay (events_per_second : Nat) : ℚ :=
  1 / events_per_second

/-- Number of sends one `event_sender` thread performs in `duration`
seconds in the zero-latency idealization: sends happen at times
`k * (1 / events_per_second)` for `k = 0, 1, 2, ...` while the clock is
below `duration` (loop condition line 137, pause line 146). -/
def sender_sends (events_per_second duration : Nat) : Nat :=
  duration * events_per_second

/-- Idealized total number of events submitted by
`performance_stress_test`: three concurrent `event_sender` threads. -/
def perf_total_sends (events_per_second duration : Nat) : Nat :=
  perf_sender_threads * sender_sends events_per_second duration

/-- The banner's own prediction, printed on line 129:
`Expected total: {duration_seconds * events_per_second} events`. -/
def perf_expected_total (events_per_second duration : Nat) : Nat :=
  duration * events_per_second

/-- The arguments `run_full_test_suite` passes to
`performance_stress_test` (line 334): duration 30 s, 10 events/second. -/
def suite_perf_args : Nat × Nat := (30, 10)

/-- `int(n * 0.95)` of `print_results` (line 283), in exact arithmetic:
the floor of `0.95 * n`. -/
def p95_index (n : Nat) : Nat := n * 95 / 100

/-- The early-return message of `print_results` (line 278). -/
def no_events_message : String := "No successful events processed"

/-- `StressTestRunner.print_results` (lines 275-309), reduced to its
observable computation: on an empty latency list it prints the
no-events message and returns before computing any statistic; otherwise
it computes the average latency and the P95 latency
`sorted(latencies)[int(len(latencies) * 0.95)]` (the printed report lines
around them are formatting only). -/
def print_results (lats : List ℚ) : Option String × Option (ℚ × ℚ) :=
  if lats.isEmpty then
    (some no_events_message, none)
  else
    (none,
     some (lats.sum / lats.length,
           (lats.mergeSort (fun a b => decide (a ≤ b))).getD
             (p95_index lats.length) 0))

/-- C1: a completed `send_event` call writes exactly one JSON document to
the subprocess's stdin and classifies solely from the exit code: exit code 0
returns success with stdout, bumping `events_processed` and appending the
latency; a non-zero exit code returns failure with stderr, bumping
`errors`. -/
theorem send_event_completed_classification (res : Results) (ed : EventInput)
    (rc : Int) (out err : String) (lat tmo : ℚ) :
    (send_event res ed (.completed rc out err) lat tmo).2.2 = [json_data ed] ∧
    (rc = 0 →
      (send_event res ed (.completed rc out err) lat tmo).1 = ⟨true, lat, out⟩ ∧
      (send_event res ed (.completed rc out err) lat tmo).2.1 =
        { res with events_processed := res.events_processed + 1,
                   latencies := res.latencies ++ [lat] }) ∧
    (rc ≠ 0 →
      (send_event res ed (.completed rc out err) lat tmo).1 = ⟨false, lat, err⟩ ∧
      (send_event res ed (.completed rc out err) lat tmo).2.1 =
        { res with errors := res.errors + 1 }) := by
  refine ⟨?_, fun h0 => ?_, fun hn => ?_⟩ <;> simp only [send_event]
  · split <;> rfl
  · simp [h0]
  · simp [hn]

/-- Witness for C1: both exit-code branches at concrete inputs. -/
theorem send_event_completed_classification_witness :
    ((send_event init_results (.str "\x7b\x7d") (.completed 0 "ok" "") 1 5).1 =
      ⟨true, 1, "ok"⟩ ∧
     (send_event init_results (.str "\x7b\x7d") (.completed 0 "ok" "") 1 5).2.1.events_processed = 1) ∧
    ((send_event init_results (.str "\x7b\x7d") (.completed 2 "" "validation failed") 1 5).1 =
      ⟨false, 1, "validation failed"⟩ ∧
     (send_event init_results (.str "\x7b\x7d") (.completed 2 "" "validation failed") 1 5).2.1.errors = 1) := by
  constructor
  · have h := (send_event_completed_classification init_results (.str "\x7b\x7d")
      0 "ok" "" 1 5).2.1 rfl
    exact ⟨h.1, by rw [h.2]; rfl⟩
  · have h := (send_event_completed_classification init_results (.str "\x7b\x7d")
      2 "" "validation failed" 1 5).2.2 (by decide)
    exact ⟨h.1, by rw [h.2]; rfl⟩

/-- C8: `send_event` is total at its call boundary — every oracle outcome
yields a return triple; a timeout is counted in `timeouts` (errors and
processed counts untouched) and reported as a failure with latency
`timeout * 1000` and output `"Process timed out"`; any other exception is
counted in `errors` and reported as a failure with latency 0 and the
exception message as output. -/
theorem send_event_total_and_exception_paths (res : Results) (ed : EventInput)
    (lat tmo : ℚ) (msg : String) :
    (∀ outcome : ExecOutcome, ∃ sr res2 docs,
      send_event res ed outcome lat tmo = (sr, res2, docs)) ∧
    send_event res ed .timedOut lat tmo =
      (⟨false, tmo * 1000, "Process timed out"⟩,
       { res with timeouts := res.timeouts + 1 },
       [json_data ed]) ∧
    send_event res ed (.raised msg) lat tmo =
      (⟨false, 0, msg⟩,
       { res with errors := res.errors + 1 },
       []) := by
  refine ⟨fun outcome => ?_, rfl, rfl⟩
  exact ⟨_, _, _, rfl⟩

/-- C9: every completed `send_event` call increments exactly one of the
three counters by one, and preserves the invariant that the number of
recorded latencies equals `events_processed`. -/
theorem send_event_counter_invariant (res : Results) (ed : EventInput)
    (outcome : ExecOutcome) (lat tmo : ℚ)
    (h : res.latencies.length = res.events_processed) :
    ((send_event res ed outcome lat tmo).2.1.events_processed +
     (send_event res ed outcome lat tmo).2.1.errors +
     (send_event res ed outcome lat tmo).2.1.timeouts) =
      (res.events_processed + res.errors + res.timeouts) + 1 ∧
    (((send_event res ed outcome lat tmo).2.1.events_processed = res.events_processed + 1 ∧
      (send_event res ed outcome lat tmo).2.1.errors = res.errors ∧
      (send_event res ed outcome lat tmo).2.1.timeouts = res.timeouts) ∨
     ((send_event res ed outcome lat tmo).2.1.events_processed = res.events_processed ∧
      (send_event res ed outcome lat tmo).2.1.errors = res.errors + 1 ∧
      (send_event res ed outcome lat tmo).2.1.timeouts = res.timeouts) ∨
     ((send_event res ed outcome lat tmo).2.1.events_processed = res.events_processed ∧
      (send_event res ed outcome lat tmo).2.1.errors = res.errors ∧
      (send_event res ed outcome lat tmo).2.1.timeouts = res.timeouts + 1)) ∧
    (send_event res ed outcome lat tmo).2.1.latencies.length =
      (send_event res ed outcome lat tmo).2.1.events_processed := by
  cases outcome with
  | completed rc out err =>
      by_cases hrc : rc = 0 <;> simp [send_event, hrc, h] <;> omega
  | timedOut => simp [send_event, h]; omega
  | raised msg => simp [send_event, h]; omega

/-- Witness for C9: a successful call from the initial state. -/
theorem send_event_counter_invariant_witness :
    (send_event init_results (.str "\x7b\x7d") (.completed 0 "" "") 2 5).2.1.latencies.length =
      (send_event init_results (.str "\x7b\x7d") (.completed 0 "" "") 2 5).2.1.events_processed :=
  (send_event_counter_invariant init_results (.str "\x7b\x7d")
    (.completed 0 "" "") 2 5 rfl).2.2

/-- C2: during the performance stress test, a failed submission is escalated
as a warning if and only if it failed and its diagnostic output does not
contain the literal substring "validation failed"; failures containing that
substring produce no warning. -/
theorem event_sender_warning_iff (success : Bool) (output : String) :
    event_sender_warning success output ≠ none ↔
      (success = false ∧ py_in validation_failed_marker output = false) := by
  cases success <;> cases hc : py_in validation_failed_marker output <;>
    simp [event_sender_warning, hc]

/-- C7: the oversized case of the malformed-event generator is the JSON
serialization of an object (hence syntactically valid JSON) whose
`session_id` value is a string of exactly 600,000 bytes, and every value
`generate_malformed_event` can return is one of the five fixed shapes:
truncated JSON, unknown event type, empty session id, the 600,000-byte
session-id event, and the empty object. -/
theorem generate_malformed_event_shapes :
    sess600k.length = 600000 ∧
    oversized_session_event =
      json_dumps_obj [("hook_event_name", JVal.s "SessionStart"),
                      ("session_id", JVal.s sess600k)] ∧
    malformed_types =
      ["\x7b\"invalid\": \"json\"",
       "\x7b\"hook_event_name\": \"InvalidEvent\"\x7d",
       "\x7b\"session_id\": \"\"\x7d",
       oversized_session_event,
       "\x7b\x7d"] ∧
    malformed_types.length = 5 ∧
    (∀ i : Fin 5, generate_malformed_event i ∈ malformed_types) := by
  refine ⟨?_, rfl, rfl, rfl, fun i => List.get_mem _ _ _⟩
  rw [sess600k, String.length_mk, List.length_replicate]

/-- A string with positive length is not the empty string. -/
theorem string_ne_empty_of_pos {s : String} (h : 0 < s.length) : s ≠ "" := by
  intro he
  subst he
  exact absurd h (by decide)

/-- Appending to a nonempty string stays nonempty. -/
theorem append_left_ne_empty {a t : String} (h : 0 < a.length) : a ++ t ≠ "" :=
  string_ne_empty_of_pos (by rw [String.length_append]; omega)

/-- C6: every event the harness obtains from `generate_event` (its call
sites pass no event type, an empty one, or a member of the pool) has a
`hook_event_name` in the closed six-member set, a non-empty `session_id`,
the microsecond-epoch decimal timestamp, and a `data` mapping that carries
`prompt_length` and `message_id` for `UserPromptSubmit` events and
`notification_type` and `message` for `Notification` events. -/
theorem generate_event_shape (sid etype : Option String) (r : EventRandomness)
    (h : etype = none ∨ etype = some "" ∨ ∃ s ∈ event_types, etype = some s) :
    (generate_event sid etype r).hook_event_name ∈ event_types ∧
    (generate_event sid etype r).session_id ≠ "" ∧
    (generate_event sid etype r).timestamp = toString r.t_micro ∧
    ((generate_event sid etype r).hook_event_name = "UserPromptSubmit" →
      "prompt_length" ∈ (generate_event sid etype r).data.map Prod.fst ∧
      "message_id" ∈ (generate_event sid etype r).data.map Prod.fst) ∧
    ((generate_event sid etype r).hook_event_name = "Notification" →
      "notification_type" ∈ (generate_event sid etype r).data.map Prod.fst ∧
      "message" ∈ (generate_event sid etype r).data.map Prod.fst) := by
  refine ⟨?_, ?_, rfl, fun h2 => ?_, fun h2 => ?_⟩
  · show resolve_event_type etype r ∈ event_types
    rcases h with h | h | ⟨s, hs, h⟩ <;> subst h
    · exact List.get_mem _ _ _
    · simp [resolve_event_type]
    · by_cases he : s = ""
      · subst he
        simp [resolve_event_type]
      · simpa [resolve_event_type, he] using hs
  · show resolve_session_id sid r ≠ ""
    cases sid with
    | none => exact append_left_ne_empty (by decide)
    | some s =>
        by_cases he : s = ""
        · subst he
          simp only [resolve_session_id, if_pos rfl]
          exact append_left_ne_empty (by decide)
        · simp [resolve_session_id, he]
  · have h2' : resolve_event_type etype r = "UserPromptSubmit" := h2
    simp [generate_event, h2']
  · have h2' : resolve_event_type etype r = "Notification" := h2
    simp [generate_event, h2']

/-- Witness for C6 at a fully concrete input. -/
theorem generate_event_shape_witness :
    (generate_event none none
      ⟨123456, 1, 1700000000000000, "testuser", 0, 100, true, 2000, 0⟩).hook_event_name ∈
        event_types ∧
    (generate_event none none
      ⟨123456, 1, 1700000000000000, "testuser", 0, 100, true, 2000, 0⟩).session_id ≠ "" ∧
    "prompt_length" ∈
      (generate_event none none
        ⟨123456, 1, 1700000000000000, "testuser", 0, 100, true, 2000, 0⟩).data.map Prod.fst := by
  have h := generate_event_shape none none
    ⟨123456, 1, 1700000000000000, "testuser", 0, 100, true, 2000, 0⟩ (Or.inl rfl)
  exact ⟨h.1, h.2.1, (h.2.2.2.1 (by decide)).1⟩

/-- Length of the 700,000-byte scenario value. -/
theorem ystr700k_length : ystr700k.length = 700000 := by
  rw [ystr700k, String.length_mk, List.length_replicate]

/-- The serialized oversized scenario document is 700,009 bytes long. -/
theorem oversized_payload_length : oversized_payload.length = 700009 := by
  rw [oversized_payload, json_dumps_obj]
  simp only [dump_entries, JVal.dump, String.length_append, ystr700k_length]
  decide

/-- C3: the error-injection test submits exactly the five client-error
scenarios, in order: a malformed event, the oversized payload (whose single
string value is exactly 700,000 bytes, so the serialized document is
strictly longer than 700,000 bytes), the empty string, an event whose
`hook_event_name` is outside the closed set, and a document without a
`session_id` key; and a scenario is reported "Failed as expected" exactly
when its invocation does not succeed. -/
theorem error_injection_scenarios (mi : Fin 5) (t4 t5 : Nat) :
    (error_scenarios mi t4 t5).length = 5 ∧
    (error_scenarios mi t4 t5).map Prod.fst =
      ["Malformed JSON", "Oversized payload", "Empty input",
       "Invalid event type", "Missing session_id"] ∧
    ("Oversized payload", oversized_payload) ∈ error_scenarios mi t4 t5 ∧
    ystr700k.length = 700000 ∧
    700000 < oversized_payload.length ∧
    ("Empty input", "") ∈ error_scenarios mi t4 t5 ∧
    "InvalidEvent" ∉ event_types ∧
    ("Invalid event type", json_dumps_obj (invalid_type_fields t4)) ∈
      error_scenarios mi t4 t5 ∧
    "session_id" ∉ (missing_sid_fields t5).map Prod.fst ∧
    (∀ send_success : String → Bool,
      (error_injection_verdicts mi t4 t5 send_success).all (fun v => v.2) = true ↔
        ∀ sc ∈ error_scenarios mi t4 t5, send_success sc.2 = false) := by
  refine ⟨rfl, rfl, by simp [error_scenarios], ystr700k_length,
    by rw [oversized_payload_length]; omega,
    by simp [error_scenarios], by decide, by simp [error_scenarios],
    by simp [missing_sid_fields], fun send_success => ?_⟩
  simp [error_injection_verdicts, error_scenarios]

/-- Witness for C3: with an always-failing sender every scenario is
reported "Failed as expected". -/
theorem error_injection_scenarios_witness :
    (error_injection_verdicts 0 0 0 (fun _ => false)).all (fun v => v.2) = true :=
  ((error_injection_scenarios 0 0 0).2.2.2.2.2.2.2.2.2 (fun _ => false)).mpr
    (fun _ _ => rfl)

/-- Length of a `flatMap` whose blocks all have length `k`. -/
theorem length_flatMap_const {α β : Type} (l : List α) (f : α → List β) (k : Nat)
    (h : ∀ a ∈ l, (f a).length = k) : (l.flatMap f).length = l.length * k := by
  induction l with
  | nil => simp
  | cons a l ih =>
      rw [List.flatMap_cons, List.length_append, h a (List.mem_cons_self a l),
        ih (fun b hb => h b (List.mem_cons_of_mem a hb)), List.length_cons]
      ring

/-- Each session worker launches exactly `events_per_session` invocations. -/
theorem session_worker_calls_length (sid : String) (eps : Nat) :
    (session_worker_calls sid eps).length = eps := by
  simp [session_worker_calls]

/-- C5: the concurrent sessions test launches `num_sessions` workers, each
submitting `events_per_session` events — `num_sessions * events_per_session`
invocations in total, 80 with the defaults (8 sessions, 10 events each) —
the workers' session ids are pairwise distinct, every invocation carries a
valid event type from the closed set, and the completed test contains all
ten calls of every one of the eight default workers (the executor joins
every `future.result()`). -/
theorem concurrent_sessions_counts :
    (∀ n eps, (concurrent_sessions_calls n eps).length = n * eps) ∧
    (concurrent_sessions_calls 8 10).length = 80 ∧
    (concurrent_session_ids 8).Nodup ∧
    (∀ n eps c, c ∈ concurrent_sessions_calls n eps → c.2 ∈ event_types) ∧
    (∀ sid ∈ concurrent_session_ids 8,
      ((concurrent_sessions_calls 8 10).filter (fun c => c.1 = sid)).length = 10) := by
  have hlen : ∀ n eps, (concurrent_sessions_calls n eps).length = n * eps := by
    intro n eps
    rw [concurrent_sessions_calls,
      length_flatMap_const _ _ eps (fun sid _ => session_worker_calls_length sid eps)]
    simp [concurrent_session_ids]
  refine ⟨hlen, by rw [hlen], by decide, ?_, by decide⟩
  intro n eps c hc
  rw [concurrent_sessions_calls, List.mem_flatMap] at hc
  obtain ⟨sid, _, hc⟩ := hc
  rw [session_worker_calls, List.mem_map] at hc
  obtain ⟨i, _, hc⟩ := hc
  subst hc
  have hsub : ∀ x ∈ worker_event_types, x ∈ event_types := by
    intro x hx
    fin_cases hx <;> decide
  exact hsub _ (List.get_mem _ _ _)

/-- Witness for C5 at concrete inputs. -/
theorem concurrent_sessions_counts_witness :
    (("sess_concurrent_00", "SessionStart") : String × String).2 ∈ event_types ∧
    ((concurrent_sessions_calls 8 10).filter
      (fun c => c.1 = "sess_concurrent_00")).length = 10 :=
  ⟨concurrent_sessions_counts.2.2.2.1 8 10 _ (by decide),
   concurrent_sessions_counts.2.2.2.2 "sess_concurrent_00" (by decide)⟩

/-- The zero-latency schedule behind `sender_sends`: one `event_sender`
thread's `k`-th send happens at time `k / events_per_second`, and exactly
the sends with `k < duration * events_per_second` fall inside the test
window. -/
theorem sender_sends_spec (eps duration k : Nat) (heps : 0 < eps) :
    ((k : ℚ) * perf_sender_delay eps < duration) ↔ k < sender_sends eps duration := by
  rw [perf_sender_delay, sender_sends, mul_one_div,
    div_lt_iff₀ (by exact_mod_cast heps)]
  exact_mod_cast Iff.rfl

/-- C4 (code bug): `run_full_test_suite` does configure the performance
stress test for 30 s at 10 events/second over an 8-id session pool, and
each sender pauses `1.0 / events_per_second` seconds between sends — but
the test runs three such sender threads concurrently, so its idealized
aggregate submission count over the window is 900 events (30 events/second),
three times the 300 events its own banner predicts
("Expected total: duration * events_per_second"). -/
theorem perf_rate_mismatch :
    suite_perf_args = (30, 10) ∧
    perf_session_pool.length = 8 ∧
    perf_sender_delay 10 = 1 / 10 ∧
    perf_sender_threads = 3 ∧
    perf_total_sends 10 30 = 900 ∧
    perf_expected_total 10 30 = 300 ∧
    perf_total_sends 10 30 ≠ perf_expected_total 10 30 := by
  refine ⟨rfl, by decide, ?_, rfl, rfl, rfl, by decide⟩
  rw [perf_sender_delay]
  norm_num

/-- C10: `print_results` on an empty latency list prints the no-events
message and returns without computing any statistic; on a nonempty list of
`n` latencies the P95 index `int(n * 0.95)` is strictly below `n`, which is
also the length of the sorted list it indexes. -/
theorem print_results_degenerate (lats : List ℚ) :
    (lats = [] → print_results lats = (some no_events_message, none)) ∧
    (lats ≠ [] →
      p95_index lats.length < (lats.mergeSort (fun a b => decide (a ≤ b))).length ∧
      p95_index lats.length < lats.length) := by
  constructor
  · intro h
    subst h
    rfl
  · intro h
    have hn : 0 < lats.length := List.length_pos.mpr h
    have hp : p95_index lats.length < lats.length := by
      rw [p95_index, Nat.div_lt_iff_lt_mul (by omega)]
      omega
    exact ⟨by simpa using hp, hp⟩

/-- Witness for C10: the empty list and a one-element list. -/
theorem print_results_degenerate_witness :
    print_results [] = (some no_events_message, none) ∧
    p95_index ([(5 : ℚ)]).length < ([(5 : ℚ)]).length :=
  ⟨(print_results_degenerate []).1 rfl,
   ((print_results_degenerate [5]).2 (by simp)).2⟩
